import Mathlib

/-!
Shallow embedding of the KyoshinMonitor component
(`src/components/maps/kyoshin-monitor.tsx`): the intensity color table,
the overlay projector `siteGeoJSON`, the rate-limited poll gate of
`fetchKyoshinMonitorData`, the shared abort-controller bookkeeping of the
poller, and the fetch-result handling.

Coordinates are modelled as rationals: the component never performs
arithmetic on them, it only moves them between positions, so any exact
numeric type is faithful.  JS strings of intensity codes are modelled as
`List Char`; a JS value that may be `null`/`undefined` is an `Option`.
-/

/-- `realTimeData` field of the snapshot JSON: an optional intensity code
string and an optional timestamp. -/
structure RealTimeData where
  intensity : Option (List Char)
  timestamp : Option String
deriving DecidableEq

/-- The snapshot object held in the `kmoniData` state. -/
structure KmoniData where
  realTimeData : Option RealTimeData
deriving DecidableEq

/-- GeoJSON point geometry: `coordinates` is a `[lng, lat]` list. -/
structure PointGeometry where
  coordinates : List ℚ
deriving DecidableEq

/-- One emitted overlay feature: point geometry plus the `color` and
`radius` properties set by the projector. -/
structure SiteFeature where
  geometry : PointGeometry
  color : String
  radius : ℕ
deriving DecidableEq

/-- The `FeatureCollection` returned by `siteGeoJSON`. -/
structure FeatureCollection where
  features : List SiteFeature
deriving DecidableEq

/-- The `colorList` record, lines 27-54 of the source: keys are the 26
lowercase letters, values the fixed hex colors. -/
def colorList : List (Char × String) :=
  [('a', "#00000000"), ('b', "#00000000"), ('c', "#00000000"), ('d', "#0000FF"),
   ('e', "#0033FF"), ('f', "#0066FF"), ('g', "#0099FF"), ('h', "#00CCFF"),
   ('i', "#00FF99"), ('j', "#00FF66"), ('k', "#44FF00"), ('l', "#88FF00"),
   ('m', "#CCFF00"), ('n', "#FFFF00"), ('o', "#FFCC00"), ('p', "#FF9900"),
   ('q', "#FF6600"), ('r', "#FF3300"), ('s', "#FF0000"), ('t', "#CC0000"),
   ('u', "#990000"), ('v', "#660000"), ('w', "#330000"), ('x', "#331A1A"),
   ('y', "#663333"), ('z', "#993333")]

/-- JS property read `colorList[key]`: `some` value when the key is
present, `none` otherwise. -/
def lookupColor (key : Char) : Option String :=
  (colorList.find? (fun p => p.1 == key)).map Prod.snd

/-- `convertStringToColor`, lines 56-58: look the lowercased character up
in `colorList`, falling back to `"#b00201"` (JS `||`; every table value is
a non-empty string, hence truthy). -/
def convertStringToColor (ch : Char) : String :=
  (lookupColor ch.toLower).getD "#b00201"

/-- The skip test of the projector loop, line 254:
`char === 'a' || char === 'b' || char === 'c'` (case-sensitive). -/
def belowThreshold (c : Char) : Bool :=
  c == 'a' || c == 'b' || c == 'c'

/-- The truthiness test on `kmoniData?.realTimeData?.intensity`:
falsy when the chain is broken or the string is empty. -/
def falsyIntensity : Option (List Char) → Bool
  | none => true
  | some s => s.isEmpty

/-- Optional-chain read `kmoniData?.realTimeData?.intensity`. -/
def intensityOf (kmoniData : Option KmoniData) : Option (List Char) :=
  (kmoniData.bind KmoniData.realTimeData).bind RealTimeData.intensity

/-- The feature pushed at one loop iteration, lines 257-267: the station
pair is `[lat, lng]`, the geometry written is `[lng, lat]`. -/
def mkFeature (station : ℚ × ℚ) (c : Char) : SiteFeature :=
  { geometry := { coordinates := [station.2, station.1] },
    color := convertStringToColor c,
    radius := 3 }

/-- The `for` loop of lines 250-268: walk the station list and the code
string in lockstep up to `min` of the lengths, skipping codes
`'a'`, `'b'`, `'c'` and pushing a feature otherwise. -/
def buildFeatures : List (ℚ × ℚ) → List Char → List SiteFeature
  | station :: stations, c :: cs =>
      if belowThreshold c then buildFeatures stations cs
      else mkFeature station c :: buildFeatures stations cs
  | _, _ => []

/-- `siteGeoJSON`, lines 243-270: empty collection when disabled, when the
intensity chain is falsy, or when the station list is empty; otherwise the
loop result. -/
def siteGeoJSON (enableKyoshinMonitor : Bool) (kmoniData : Option KmoniData)
    (pointList : List (ℚ × ℚ)) : FeatureCollection :=
  if !enableKyoshinMonitor || falsyIntensity (intensityOf kmoniData)
      || pointList.length == 0 then
    { features := [] }
  else
    { features := buildFeatures pointList ((intensityOf kmoniData).getD []) }

/-- The rate-limit state of `fetchKyoshinMonitorData`: the
`lastFetchTime` / `kyoshinDataCache.lastFetchedTime` timestamp (the two
are seeded from each other at mount and always written together, so one
field models both).  Times are millisecond epoch values, modelled as ℤ. -/
structure PollGate where
  lastFetchTime : ℤ
deriving DecidableEq

/-- Lines 173-179 of `fetchKyoshinMonitorData`: return without fetching
when the app-time ref is falsy (`null` or `0`) or when fewer than 500 ms
passed since the recorded fetch time; otherwise record `now` and proceed.
Result: (whether a fetch is issued, updated state). -/
def tickGate (nowAppTime : Option ℤ) (st : PollGate) : Bool × PollGate :=
  match nowAppTime with
  | none => (false, st)
  | some now =>
      if now = 0 then (false, st)
      else if now - st.lastFetchTime < 500 then (false, st)
      else (true, { lastFetchTime := now })

/-- Scheduler events of the snapshot poller: a timer tick with the current
app time, or the settling of an issued request `r` (success, HTTP error or
abort rejection — in every case the `finally` of that invocation runs). -/
inductive FetchEvent
  | tick (now : ℤ)
  | settle (reqId : ℕ)
deriving DecidableEq

/-- The cross-tick fetch state: the rate-limit timestamp, the shared
`kyoshinDataCache.abortController` slot (holding the id of the request it
was created for), the requests issued but not yet settled, the requests
whose controller was aborted, and a fresh-id counter. -/
structure FetchSystem where
  lastFetchTime : ℤ
  abortController : Option ℕ
  inflight : List ℕ
  abortedList : List ℕ
  nextId : ℕ
deriving DecidableEq

/-- State before any tick: `lastFetchedTime` 0, no controller, nothing in
flight. -/
def initFetchSystem : FetchSystem :=
  { lastFetchTime := 0, abortController := none, inflight := [],
    abortedList := [], nextId := 0 }

/-- One scheduler event of `fetchKyoshinMonitorData` (lines 173-230).
A tick that passes the guards aborts the controller held in the shared
slot (lines 181-183), then stores a fresh controller and issues the fetch
(lines 193-203).  A settling invocation runs its `finally` (line 228),
which sets the shared slot to `null` unconditionally — even when the slot
meanwhile holds the controller of a newer request. -/
def stepFetch (st : FetchSystem) (e : FetchEvent) : FetchSystem :=
  match e with
  | .tick now =>
      if now = 0 then st
      else if now - st.lastFetchTime < 500 then st
      else
        let st1 := { st with lastFetchTime := now }
        let st2 :=
          match st1.abortController with
          | some r => { st1 with abortedList := r :: st1.abortedList }
          | none => st1
        { st2 with
            abortController := some st2.nextId,
            inflight := st2.nextId :: st2.inflight,
            nextId := st2.nextId + 1 }
  | .settle r =>
      if r ∈ st.inflight then
        { st with inflight := st.inflight.erase r, abortController := none }
      else st

/-- Run a sequence of scheduler events from the initial state. -/
def runFetch (events : List FetchEvent) : FetchSystem :=
  events.foldl stepFetch initFetchSystem

/-- Requests currently outstanding: issued, not settled and not aborted. -/
def outstanding (st : FetchSystem) : List ℕ :=
  st.inflight.filter (fun r => !st.abortedList.contains r)

/-- How one invocation of `fetchKyoshinMonitorData` ends, lines 200-229:
non-2xx response, abort/timeout rejection, any other fetch/parse
exception, or a parsed snapshot. -/
inductive FetchResult
  | httpError (status : ℕ)
  | abortError
  | otherError
  | success (data : KmoniData)
deriving DecidableEq

/-- The effect of a finished invocation on the `kmoniData` state,
lines 207-229: only a successful result on a still-mounted component calls
`setKmoniData`; the `!res.ok` early return, the `AbortError` branch and
the generic `catch` all just log and leave the state alone.  Totality of
this function is the model of «no exception escapes the routine». -/
def applyFetchResult (isMounted : Bool) (kmoniData : Option KmoniData)
    (r : FetchResult) : Option KmoniData :=
  match r with
  | .success data => if isMounted then some data else kmoniData
  | .httpError _ => kmoniData
  | .abortError => kmoniData
  | .otherError => kmoniData

/-! ### Helper lemmas about the projector loop -/

/-- The loop emits one feature per in-range index whose code is not
`'a'`, `'b'` or `'c'`. -/
lemma buildFeatures_length (ps : List (ℚ × ℚ)) (cs : List Char) :
    (buildFeatures ps cs).length =
      ((List.range (min ps.length cs.length)).filter
        (fun i => !belowThreshold (cs.getD i 'a'))).length := by
  induction ps generalizing cs with
  | nil => simp [buildFeatures]
  | cons p ps ih =>
    cases cs with
    | nil => simp [buildFeatures]
    | cons c cs =>
      have hmin : min (p :: ps).length (c :: cs).length =
          min ps.length cs.length + 1 := by
        simp [List.length_cons, Nat.succ_min_succ]
      have hfun : ((fun i => !belowThreshold ((c :: cs).getD i 'a')) ∘ Nat.succ)
          = fun i => !belowThreshold (cs.getD i 'a') := by
        funext i
        simp [Function.comp, List.getD_cons_succ]
      rw [hmin, List.range_succ_eq_map, List.filter_cons, List.filter_map, hfun]
      by_cases hc : belowThreshold c <;>
        simp [buildFeatures, hc, ih cs]

/-- Every feature produced by the loop comes from some in-range index,
and is exactly the feature built from that index's station and code. -/
lemma mem_buildFeatures {f : SiteFeature} :
    ∀ (ps : List (ℚ × ℚ)) (cs : List Char), f ∈ buildFeatures ps cs →
      ∃ i : ℕ, i < ps.length ∧ i < cs.length ∧
        belowThreshold (cs.getD i 'a') = false ∧
        f = mkFeature (ps.getD i (0, 0)) (cs.getD i 'a')
  | p :: ps, c :: cs, hf => by
    by_cases hc : belowThreshold c
    · have hf' : f ∈ buildFeatures ps cs := by
        simpa [buildFeatures, hc] using hf
      obtain ⟨i, h1, h2, h3, h4⟩ := mem_buildFeatures ps cs hf'
      exact ⟨i + 1, by simpa using h1, by simpa using h2, h3, h4⟩
    · rcases (by simpa [buildFeatures, hc] using hf :
          f = mkFeature p c ∨ f ∈ buildFeatures ps cs) with h | h
      · exact ⟨0, by simp, by simp, by simpa using hc, by simpa using h⟩
      · obtain ⟨i, h1, h2, h3, h4⟩ := mem_buildFeatures ps cs h
        exact ⟨i + 1, by simpa using h1, by simpa using h2, h3, h4⟩
  | [], _, hf => by simp [buildFeatures] at hf
  | _ :: _, [], hf => by simp [buildFeatures] at hf

/-- Conversely, every in-range index with a code outside `'a'`-`'c'`
contributes its feature to the loop's output. -/
lemma buildFeatures_mem_of_getD :
    ∀ (ps : List (ℚ × ℚ)) (cs : List Char) (i : ℕ), i < ps.length →
      i < cs.length → belowThreshold (cs.getD i 'a') = false →
      mkFeature (ps.getD i (0, 0)) (cs.getD i 'a') ∈ buildFeatures ps cs
  | p :: ps, c :: cs, 0, _, _, hc => by
    rw [List.getD_cons_zero, List.getD_cons_zero]
    have hc' : belowThreshold c = false := by simpa using hc
    simp only [buildFeatures]
    rw [if_neg (by simp [hc'])]
    exact List.mem_cons_self _ _
  | p :: ps, c :: cs, i + 1, h1, h2, hc => by
    rw [List.getD_cons_succ, List.getD_cons_succ]
    have hrec := buildFeatures_mem_of_getD ps cs i (by simpa using h1)
      (by simpa using h2) (by simpa using hc)
    simp only [buildFeatures]
    by_cases hcc : belowThreshold c
    · rw [if_pos hcc]; exact hrec
    · rw [if_neg hcc]; exact List.mem_cons_of_mem _ hrec

/-- The color table has an entry for a key exactly when the key occurs
among the table's keys (the 26 lowercase letters). -/
lemma lookupColor_isSome_iff (key : Char) :
    (lookupColor key).isSome ↔ key ∈ colorList.map Prod.fst := by
  simp [lookupColor, List.find?_isSome, List.mem_map, beq_iff_eq]

/-- When enabled, with an intensity string present and both lists
nonempty, `siteGeoJSON` returns exactly the loop's output. -/
lemma siteGeoJSON_enabled (cs : List Char) (ts : Option String)
    (ps : List (ℚ × ℚ)) (hcs : cs ≠ []) (hps : ps ≠ []) :
    (siteGeoJSON true (some ⟨some ⟨some cs, ts⟩⟩) ps).features =
      buildFeatures ps cs := by
  have h1 : falsyIntensity (some cs) = false := by
    simp [falsyIntensity, List.isEmpty_iff, hcs]
  have h2 : (ps.length == 0) = false := by
    simp [List.length_eq_zero, hps]
  simp [siteGeoJSON, intensityOf, h1, h2]

/-! ### The claims -/

/-- C1: with the overlay enabled and a snapshot carrying code string `cs`,
`siteGeoJSON` emits exactly one feature per index `i < min(|S|, |K|)`
whose code is not one of the three lowest codes, so the feature count
equals the number of such indices. -/
theorem claim_C1 (cs : List Char) (ts : Option String) (ps : List (ℚ × ℚ)) :
    (siteGeoJSON true (some ⟨some ⟨some cs, ts⟩⟩) ps).features.length =
      ((List.range (min ps.length cs.length)).filter
        (fun i => !belowThreshold (cs.getD i 'a'))).length := by
  rcases cs with _ | ⟨c, cs⟩
  · simp [siteGeoJSON, intensityOf, falsyIntensity]
  rcases ps with _ | ⟨p, ps⟩
  · simp [siteGeoJSON, intensityOf, falsyIntensity]
  rw [siteGeoJSON_enabled _ _ _ (by simp) (by simp), buildFeatures_length]

/-- C2: every feature the projector emits carries the geometry
`[longitude, latitude]` built from some station entry
`(latitude, longitude)` of the input list — the order is inverted. -/
theorem claim_C2 (enableKyoshinMonitor : Bool) (kmoniData : Option KmoniData)
    (pointList : List (ℚ × ℚ)) (f : SiteFeature)
    (hf : f ∈ (siteGeoJSON enableKyoshinMonitor kmoniData pointList).features) :
    ∃ i : ℕ, i < pointList.length ∧
      f.geometry.coordinates =
        [(pointList.getD i (0, 0)).2, (pointList.getD i (0, 0)).1] := by
  unfold siteGeoJSON at hf
  by_cases hg : (!enableKyoshinMonitor || falsyIntensity (intensityOf kmoniData)
      || pointList.length == 0) = true
  · rw [if_pos hg] at hf
    simp at hf
  · rw [if_neg hg] at hf
    obtain ⟨i, h1, _, _, h4⟩ := mem_buildFeatures _ _ hf
    exact ⟨i, h1, by simp [h4, mkFeature]⟩

/-- C2 witness: the single feature emitted for station `(35, 139)` with
code `'s'` has geometry `[139, 35]`. -/
theorem claim_C2_witness :
    ∃ i : ℕ, i < ([((35 : ℚ), (139 : ℚ))] : List (ℚ × ℚ)).length ∧
      (SiteFeature.mk ⟨[139, 35]⟩ "#FF0000" 3).geometry.coordinates =
        [(([((35 : ℚ), (139 : ℚ))] : List (ℚ × ℚ)).getD i (0, 0)).2,
         (([((35 : ℚ), (139 : ℚ))] : List (ℚ × ℚ)).getD i (0, 0)).1] :=
  claim_C2 true (some ⟨some ⟨some ['s'], none⟩⟩) [(35, 139)]
    (SiteFeature.mk ⟨[139, 35]⟩ "#FF0000" 3) (by decide)

/-- C3: the color lookup is total and case-insensitive: when the
lowercased character has a table entry the entry's color is returned, any
character without an entry gets the fallback `"#b00201"`, the table's
keys are exactly the 26 lowercase letters, and two characters with the
same lowercase form get the same color. -/
theorem claim_C3 (c : Char) :
    (∀ col : String, lookupColor c.toLower = some col →
        convertStringToColor c = col) ∧
    (lookupColor c.toLower = none → convertStringToColor c = "#b00201") ∧
    ((lookupColor c.toLower).isSome ↔ c.toLower ∈ colorList.map Prod.fst) ∧
    (∀ c2 : Char, c.toLower = c2.toLower →
        convertStringToColor c = convertStringToColor c2) := by
  refine ⟨?_, ?_, lookupColor_isSome_iff _, ?_⟩
  · intro col h
    simp [convertStringToColor, h]
  · intro h
    simp [convertStringToColor, h]
  · intro c2 h
    simp [convertStringToColor, h]

/-- C3 witness: uppercase and lowercase of the same letter get the same
color. -/
theorem claim_C3_witness :
    convertStringToColor 'S' = convertStringToColor 's' :=
  (claim_C3 'S').2.2.2 's' (by decide)

/-- C4: the projector returns an empty collection when disabled, when the
`kmoniData?.realTimeData?.intensity` chain yields nothing, or when the
station list is empty. -/
theorem claim_C4 (enableKyoshinMonitor : Bool) (kmoniData : Option KmoniData)
    (pointList : List (ℚ × ℚ))
    (h : enableKyoshinMonitor = false ∨ intensityOf kmoniData = none ∨
      pointList = []) :
    siteGeoJSON enableKyoshinMonitor kmoniData pointList = { features := [] } := by
  rcases h with h | h | h <;> simp [siteGeoJSON, h, falsyIntensity]

/-- C4 witness: disabled projector on empty inputs yields no features. -/
theorem claim_C4_witness :
    siteGeoJSON false none [] = { features := [] } :=
  claim_C4 false none [] (Or.inl rfl)

/-- C5: on stations `[(35,139), (34,135)]` with codes `"sd"` the projector
emits exactly the two features `#FF0000 @ [139,35]` and
`#0000FF @ [135,34]`. -/
theorem claim_C5 :
    siteGeoJSON true (some ⟨some ⟨some ['s', 'd'], none⟩⟩)
        [(35, 139), (34, 135)] =
      { features :=
          [{ geometry := { coordinates := [139, 35] }, color := "#FF0000",
             radius := 3 },
           { geometry := { coordinates := [135, 34] }, color := "#0000FF",
             radius := 3 }] } := by
  decide

/-- C6: the projector is deterministic — identical inputs give
structurally equal feature collections. -/
theorem claim_C6 (e1 e2 : Bool) (k1 k2 : Option KmoniData)
    (ps1 ps2 : List (ℚ × ℚ)) (he : e1 = e2) (hk : k1 = k2) (hp : ps1 = ps2) :
    siteGeoJSON e1 k1 ps1 = siteGeoJSON e2 k2 ps2 := by
  rw [he, hk, hp]

/-- C6 witness: two invocations on equal concrete inputs agree. -/
theorem claim_C6_witness :
    siteGeoJSON true none [] = siteGeoJSON true none [] :=
  claim_C6 true true none none [] [] rfl rfl rfl

/-- C7: if a tick fetched at time `t1`, a second tick at `t2` with
`t2 - t1 < 500` issues no fetch and leaves the recorded timestamp
unchanged; more generally any tick that does not fetch leaves the state
unchanged. -/
theorem claim_C7 :
    (∀ (t1 t2 : ℤ) (st : PollGate),
        (tickGate (some t1) st).1 = true → t2 - t1 < 500 →
        tickGate (some t2) (tickGate (some t1) st).2 =
          (false, (tickGate (some t1) st).2)) ∧
    (∀ (nowAppTime : Option ℤ) (st : PollGate),
        (tickGate nowAppTime st).1 = false →
        (tickGate nowAppTime st).2 = st) := by
  constructor
  · intro t1 t2 st h1 h2
    have hst : (tickGate (some t1) st).2 = { lastFetchTime := t1 } := by
      simp only [tickGate] at h1 ⊢
      split_ifs at h1 ⊢
      rfl
    rw [hst]
    unfold tickGate
    by_cases e : t2 = 0
    · simp [e]
    · simp [e, h2]
  · intro nowAppTime st h
    cases nowAppTime with
    | none => rfl
    | some now =>
      simp only [tickGate] at h ⊢
      split_ifs at h ⊢
      · rfl
      · rfl

/-- C7 witness: after a fetch at 1000 ms, a tick at 1200 ms is skipped
and the recorded timestamp stays 1000. -/
theorem claim_C7_witness :
    tickGate (some 1200) (tickGate (some 1000) ⟨0⟩).2 =
      (false, (tickGate (some 1000) ⟨0⟩).2) :=
  claim_C7.1 1000 1200 ⟨0⟩ (by decide) (by decide)

/-- C8, evaluated at the failing schedule: tick at 1000 issues request 0,
tick at 2000 aborts it and issues request 1, request 0 settles and its
`finally` nulls the shared controller slot, and the tick at 3000 — finding
the slot empty — issues request 2 without aborting the still-pending
request 1.  Afterwards two requests (1 and 2) are outstanding and request
1 was never aborted, contradicting the claimed at-most-one-outstanding
guarantee. -/
theorem claim_C8_code_bug :
    (outstanding (runFetch
        [FetchEvent.tick 1000, FetchEvent.tick 2000,
         FetchEvent.settle 0, FetchEvent.tick 3000])).length = 2 ∧
    1 ∈ (runFetch [FetchEvent.tick 1000, FetchEvent.tick 2000,
         FetchEvent.settle 0, FetchEvent.tick 3000]).inflight ∧
    1 ∉ (runFetch [FetchEvent.tick 1000, FetchEvent.tick 2000,
         FetchEvent.settle 0, FetchEvent.tick 3000]).abortedList := by
  decide

/-- C9: every non-success fetch outcome — HTTP error, abort/timeout, or
any other exception — leaves the `kmoniData` state unchanged; totality of
`applyFetchResult` models that no exception escapes the routine. -/
theorem claim_C9 (isMounted : Bool) (kmoniData : Option KmoniData)
    (r : FetchResult)
    (h : ∀ data : KmoniData, r ≠ FetchResult.success data) :
    applyFetchResult isMounted kmoniData r = kmoniData := by
  cases r with
  | success data => exact absurd rfl (h data)
  | httpError s => rfl
  | abortError => rfl
  | otherError => rfl

/-- C9 witness: an aborted fetch leaves the (empty) snapshot state
untouched. -/
theorem claim_C9_witness :
    applyFetchResult true none FetchResult.abortError = none :=
  claim_C9 true none FetchResult.abortError
    (fun _ h => FetchResult.noConfusion h)

/-- C10: the skip test is case-sensitive while the color lookup is not:
an uppercase `'A'`, `'B'` or `'C'` at an in-range index is NOT skipped —
its feature is emitted, with the fully transparent color
`"#00000000"`. -/
theorem claim_C10 (ps : List (ℚ × ℚ)) (cs : List Char) (ts : Option String)
    (i : ℕ) (h1 : i < ps.length) (h2 : i < cs.length)
    (hc : cs.getD i 'a' = 'A' ∨ cs.getD i 'a' = 'B' ∨ cs.getD i 'a' = 'C') :
    mkFeature (ps.getD i (0, 0)) (cs.getD i 'a') ∈
        (siteGeoJSON true (some ⟨some ⟨some cs, ts⟩⟩) ps).features ∧
    (mkFeature (ps.getD i (0, 0)) (cs.getD i 'a')).color = "#00000000" := by
  have hthr : belowThreshold (cs.getD i 'a') = false := by
    rcases hc with h | h | h <;> rw [h] <;> decide
  constructor
  · rw [siteGeoJSON_enabled cs ts ps
      (List.ne_nil_of_length_pos (by omega))
      (List.ne_nil_of_length_pos (by omega))]
    exact buildFeatures_mem_of_getD ps cs i h1 h2 hthr
  · rcases hc with h | h | h
    · rw [h]
      exact (by decide : convertStringToColor 'A' = "#00000000")
    · rw [h]
      exact (by decide : convertStringToColor 'B' = "#00000000")
    · rw [h]
      exact (by decide : convertStringToColor 'C' = "#00000000")

/-- C10 witness: a single station with code `'A'` yields a feature, and
its color is the fully transparent one. -/
theorem claim_C10_witness :
    mkFeature (([((35 : ℚ), (139 : ℚ))] : List (ℚ × ℚ)).getD 0 (0, 0))
        ((['A'] : List Char).getD 0 'a') ∈
      (siteGeoJSON true (some ⟨some ⟨some ['A'], none⟩⟩)
        [(35, 139)]).features ∧
    (mkFeature (([((35 : ℚ), (139 : ℚ))] : List (ℚ × ℚ)).getD 0 (0, 0))
        ((['A'] : List Char).getD 0 'a')).color = "#00000000" :=
  claim_C10 [(35, 139)] ['A'] none 0 (by decide) (by decide)
    (Or.inl (by decide))
